import Mathlib

/-!
Shallow embedding of the paysheet importer (`src/js/paysheet-importer.js`)
of the BVIT-SALARY-SLIP repository, together with theorems settling the
frozen claims about it.

Conventions of the embedding:
- JavaScript strings are Lean `String`s; a parsed grid is a
  `List (List String)`.
- JavaScript numbers are embedded as exact rationals `ℚ`; `parseFloat`
  is embedded as a fallible parse `jsParseFloat : String → Option ℚ`
  (`none` stands for `NaN`; the `Infinity` production of `parseFloat`
  is outside the embedded domain).
- External effects (Firebase network calls, `localStorage`, the clock)
  are passed in explicitly: store operations as `Except String Unit`
  oracles (`.error` = the call threw), the current instant as a `now`
  string parameter.
-/

namespace PaysheetImporter

/-- JavaScript `s.includes(pat)`: `pat` occurs as a contiguous substring
of `s`. -/
def jsIncludes (s pat : String) : Bool :=
  decide (pat.toList <:+: s.toList)

/-- JavaScript `s.toLowerCase()` (ASCII range). -/
def jsToLower (s : String) : String :=
  String.mk (s.data.map Char.toLower)

/-- JavaScript `s.trim()`: drop whitespace from both ends. -/
def jsTrim (s : String) : String :=
  String.mk (((s.data.dropWhile Char.isWhitespace).reverse.dropWhile Char.isWhitespace).reverse)

/-- JavaScript `s.split(sep)` for a one-character separator, on
character lists: always returns at least one (possibly empty) group. -/
def splitOnChar (sep : Char) : List Char → List (List Char)
  | [] => [[]]
  | c :: rest =>
    if c = sep then [] :: splitOnChar sep rest
    else
      match splitOnChar sep rest with
      | [] => [[c]]
      | g :: gs => (c :: g) :: gs

/-- JavaScript `s.split(sep)` for a one-character separator. -/
def jsSplit (sep : Char) (s : String) : List String :=
  (splitOnChar sep s.data).map String.mk

/-- One step of `cell.trim().replace(/^"|"$/g, '')` from `parseCSV`
(line 30): remove a leading double quote if present, then a trailing
one if present (independently, not as a matched pair). -/
def stripQuotes (s : String) : String :=
  let l1 := match s.data with
    | '"' :: r => r
    | r => r
  let l2 := match l1.reverse with
    | '"' :: r => r.reverse
    | _ => l1
  String.mk l2

/-- `parseCSV` (lines 23-36): split the raw content on newlines, drop
blank lines, split each remaining line on commas, trim each cell and
strip surrounding quotes. -/
def parseCSV (csvContent : String) : List (List String) :=
  (jsSplit '\n' csvContent).filterMap fun line =>
    if jsTrim line = "" then none
    else some ((jsSplit ',' line).map fun cell => stripQuotes (jsTrim cell))

/-- `getMonthNumber` (lines 422-429): fixed month-name table with
default `"01"` for unrecognized names. -/
def getMonthNumber (monthName : String) : String :=
  if monthName = "January" then "01"
  else if monthName = "February" then "02"
  else if monthName = "March" then "03"
  else if monthName = "April" then "04"
  else if monthName = "May" then "05"
  else if monthName = "June" then "06"
  else if monthName = "July" then "07"
  else if monthName = "August" then "08"
  else if monthName = "September" then "09"
  else if monthName = "October" then "10"
  else if monthName = "November" then "11"
  else if monthName = "December" then "12"
  else "01"

/-- Numeric value of a digit string (most significant first). -/
def digitsVal (ds : List Char) : ℕ :=
  ds.foldl (fun a c => a * 10 + (c.toNat - 48)) 0

/-- The rational value `sign · (ip.fp) · 10^expVal` of a decimal
literal with integer digits `ip`, fraction digits `fp` and exponent
`expVal`: the digits are combined into one integer scaled by
`10^(expVal - fp.length)`, so the result is an integer when that power
is non-negative and a single quotient otherwise. -/
def decimalValue (sign : ℤ) (ip fp : List Char) (expVal : ℤ) : ℚ :=
  let scaled : ℤ := sign * ((digitsVal ip : ℤ) * 10 ^ fp.length + (digitsVal fp : ℤ))
  let p : ℤ := expVal - fp.length
  if 0 ≤ p then ((scaled * 10 ^ p.toNat : ℤ) : ℚ)
  else (scaled : ℚ) / (((10 : ℤ) ^ (-p).toNat : ℤ) : ℚ)

/-- JavaScript `parseFloat`, restricted to finite decimal literals:
skip leading whitespace, read an optional sign, an integer part, an
optional fraction part, an optional exponent; the longest valid prefix
is parsed and trailing garbage is ignored. `none` stands for `NaN`
(no digit could be read). -/
def jsParseFloat (s : String) : Option ℚ :=
  let cs0 := s.toList.dropWhile Char.isWhitespace
  let sign : ℤ := match cs0 with
    | '-' :: _ => -1
    | _ => 1
  let cs := match cs0 with
    | '+' :: r => r
    | '-' :: r => r
    | r => r
  let ip := cs.takeWhile Char.isDigit
  let cs1 := cs.dropWhile Char.isDigit
  let fp := match cs1 with
    | '.' :: r => r.takeWhile Char.isDigit
    | _ => []
  let cs2 := match cs1 with
    | '.' :: r => r.dropWhile Char.isDigit
    | r => r
  if ip.isEmpty ∧ fp.isEmpty then none
  else
    let expVal : ℤ := match cs2 with
      | c :: r =>
        if c = 'e' ∨ c = 'E' then
          let esign : ℤ := match r with
            | '-' :: _ => -1
            | _ => 1
          let r2 := match r with
            | '+' :: r3 => r3
            | '-' :: r3 => r3
            | r3 => r3
          let ed := r2.takeWhile Char.isDigit
          if ed.isEmpty then 0 else esign * (digitsVal ed : ℤ)
        else 0
      | [] => 0
    some (decimalValue sign ip fp expVal)

/-- The column mapping built by `processDataForLocalStorage`
(lines 285-335): canonical field → grid column index, every field
optional. -/
structure ColumnMap where
  teacherId : Option Nat := none
  teacherName : Option Nat := none
  designation : Option Nat := none
  qualification : Option Nat := none
  payScale : Option Nat := none
  payBand : Option Nat := none
  agp : Option Nat := none
  revisedBasicPay : Option Nat := none
  da150 : Option Nat := none
  hra30 : Option Nat := none
  cla : Option Nat := none
  addAllowance : Option Nat := none
  grossTotal : Option Nat := none
  profTax : Option Nat := none
  incomeTax : Option Nat := none
  pf : Option Nat := none
  lic : Option Nat := none
  medicalInsurance : Option Nat := none
  ewFund : Option Nat := none
  totalDeductions : Option Nat := none
  netPay : Option Nat := none
  deriving DecidableEq, Repr

/-- One iteration of the `headers.forEach` chain of
`processDataForLocalStorage` (lines 288-335): classify one header cell
(`header.toString().toLowerCase().trim()` then the `if`/`else if`
conjunctive-token chain) and record its index; a later matching column
overwrites an earlier one for the same field. -/
def classifyHeader (cm : ColumnMap) (index : Nat) (header : String) : ColumnMap :=
  let h := jsTrim (jsToLower header)
  if jsIncludes h "teacher" && jsIncludes h "id" then { cm with teacherId := some index }
  else if jsIncludes h "name" && jsIncludes h "staff" then { cm with teacherName := some index }
  else if jsIncludes h "designation" then { cm with designation := some index }
  else if jsIncludes h "qualification" then { cm with qualification := some index }
  else if jsIncludes h "pay scale" || jsIncludes h "payscale" then { cm with payScale := some index }
  else if jsIncludes h "pay" && jsIncludes h "band" then { cm with payBand := some index }
  else if jsIncludes h "a.g.p" || jsIncludes h "agp" then { cm with agp := some index }
  else if jsIncludes h "revised" && jsIncludes h "basic" then { cm with revisedBasicPay := some index }
  else if jsIncludes h "d.a" && jsIncludes h "150" then { cm with da150 := some index }
  else if jsIncludes h "h.r.a" && jsIncludes h "30" then { cm with hra30 := some index }
  else if jsIncludes h "c.l.a" then { cm with cla := some index }
  else if jsIncludes h "add" && jsIncludes h "allowance" then { cm with addAllowance := some index }
  else if jsIncludes h "gross" && jsIncludes h "total" then { cm with grossTotal := some index }
  else if jsIncludes h "prof" && jsIncludes h "tax" then { cm with profTax := some index }
  else if jsIncludes h "income" && jsIncludes h "tax" then { cm with incomeTax := some index }
  else if jsIncludes h "p.f" || h = "pf" then { cm with pf := some index }
  else if jsIncludes h "lic" then { cm with lic := some index }
  else if jsIncludes h "medical" && jsIncludes h "insur" then { cm with medicalInsurance := some index }
  else if jsIncludes h "ew" && jsIncludes h "fund" then { cm with ewFund := some index }
  else if jsIncludes h "total" && jsIncludes h "deduction" then { cm with totalDeductions := some index }
  else if jsIncludes h "net" && jsIncludes h "pay" then { cm with netPay := some index }
  else cm

/-- The whole `headers.forEach` loop (lines 288-335). -/
def buildColumnMap (headers : List String) : ColumnMap :=
  headers.enum.foldl (fun cm p => classifyHeader cm p.1 p.2) {}

/-- `row[col] || ''` for a text-kind field: the cell when the column is
mapped, in range and the cell is non-empty (a JS empty string is falsy),
`''` otherwise (`row[undefined]` and out-of-range reads are
`undefined`, also falsy). -/
def textAt (col : Option Nat) (row : List String) : String :=
  match col with
  | none => ""
  | some i => (row.get? i).getD ""

/-- `parseFloat(row[col]) || 0` for a currency-kind field: the parsed
number when the column is mapped, in range and the cell parses, `0`
otherwise (`parseFloat` of `undefined` or non-numeric text is `NaN`,
which `|| 0` turns into `0`). -/
def currencyAt (col : Option Nat) (row : List String) : ℚ :=
  match col with
  | none => 0
  | some i =>
    match row.get? i with
    | none => 0
    | some cell => (jsParseFloat cell).getD 0

/-- A normalized payroll record (the object literal of lines 345-392). -/
structure Record where
  id : String
  teacherId : String
  teacherName : String
  designation : String
  qualification : String
  payScale : String
  payBand : String
  agp : ℚ
  revisedBasicPay : ℚ
  da150 : ℚ
  hra30 : ℚ
  cla : ℚ
  addAllowance : ℚ
  grossTotal : ℚ
  profTax : ℚ
  incomeTax : ℚ
  pf : ℚ
  lic : ℚ
  medicalInsurance : ℚ
  ewFund : ℚ
  totalDeductions : ℚ
  netPay : ℚ
  basicSalary : ℚ
  da : ℚ
  hra : ℚ
  allowances : ℚ
  grossSalary : ℚ
  payDate : String
  status : String
  month : String
  year : String
  monthNum : String
  createdAt : String

/-- The record built from data row `row` at loop index `i`
(lines 345-392). `now` is the ISO string of the current instant
(`new Date().toISOString()`); `payDate` is its date part
(`.split('T')[0]`). In `id`, an unmapped/empty teacher-id cell is falsy,
so the row ordinal `i` is used. -/
def mkRecord (cm : ColumnMap) (month year now : String) (i : Nat) (row : List String) : Record :=
  { id :=
      (let t := textAt cm.teacherId row
       if t = "" then toString i else t) ++ "_" ++ month ++ "_" ++ year
    teacherId := textAt cm.teacherId row
    teacherName := textAt cm.teacherName row
    designation := textAt cm.designation row
    qualification := textAt cm.qualification row
    payScale := textAt cm.payScale row
    payBand := textAt cm.payBand row
    agp := currencyAt cm.agp row
    revisedBasicPay := currencyAt cm.revisedBasicPay row
    da150 := currencyAt cm.da150 row
    hra30 := currencyAt cm.hra30 row
    cla := currencyAt cm.cla row
    addAllowance := currencyAt cm.addAllowance row
    grossTotal := currencyAt cm.grossTotal row
    profTax := currencyAt cm.profTax row
    incomeTax := currencyAt cm.incomeTax row
    pf := currencyAt cm.pf row
    lic := currencyAt cm.lic row
    medicalInsurance := currencyAt cm.medicalInsurance row
    ewFund := currencyAt cm.ewFund row
    totalDeductions := currencyAt cm.totalDeductions row
    netPay := currencyAt cm.netPay row
    basicSalary := currencyAt cm.revisedBasicPay row
    da := currencyAt cm.da150 row
    hra := currencyAt cm.hra30 row
    allowances := currencyAt cm.addAllowance row
    grossSalary := currencyAt cm.grossTotal row
    payDate := (jsSplit 'T' now).headD now
    status := "paid"
    month := month
    year := year
    monthNum := getMonthNumber month
    createdAt := now }

/-- The data-row loop of `processDataForLocalStorage` (lines 341-395):
`i` is the current row index (starting at 1); rows with fewer than 3
cells are skipped. -/
def processRows (cm : ColumnMap) (month year now : String) : Nat → List (List String) → List Record
  | _, [] => []
  | i, row :: rest =>
    if row.length < 3 then processRows cm month year now (i + 1) rest
    else mkRecord cm month year now i row :: processRows cm month year now (i + 1) rest

/-- `processDataForLocalStorage` (lines 278-399): empty result for
grids with fewer than 2 rows, otherwise build the column map from the
header row and normalize every data row. -/
def processDataForLocalStorage (csvData : List (List String)) (month year now : String) :
    List Record :=
  if csvData.length < 2 then []
  else processRows (buildColumnMap (csvData.headD [])) month year now 1 (csvData.drop 1)

/-- `h.replace(/[\s\-_\.]/g, '')`: delete whitespace, hyphen,
underscore and period characters. -/
def stripSeparators (s : String) : String :=
  String.mk (s.toList.filter fun c =>
    !(c.isWhitespace || c = '-' || c = '_' || c = '.'))

/-- Header normalization of `validatePaysheetData` (lines 85-87):
`h.toLowerCase().replace(/[\s\-_\.]/g, '').trim()`. -/
def normalizeValidateHeader (h : String) : String :=
  jsTrim (stripSeparators (jsToLower h))

/-- The inner alias test of `validatePaysheetData` (lines 92-95): a
normalized header matches a pattern when the separator-stripped pattern
is a substring of the header or the header is a substring of the
separator-stripped pattern. -/
def headerMatchesPattern (header pattern : String) : Bool :=
  jsIncludes header (stripSeparators pattern) ||
    jsIncludes (stripSeparators pattern) header

/-- The `requiredColumns` table of `validatePaysheetData`
(lines 69-82): recommended column name and its alias patterns. -/
def requiredColumns : List (String × List String) :=
  [("Teacher ID",
    ["teacher_id", "teacherid", "id", "emp_id", "employee_id", "staff_id"]),
   ("Teacher Name",
    ["teacher_name", "teachername", "name", "employee_name", "staff_name", "full_name"]),
   ("Basic Salary",
    ["basic_salary", "basicsalary", "basic", "base_salary", "salary"])]

/-- `validatePaysheetData` (lines 61-105): throws when the grid has
fewer than two rows, otherwise returns `true` together with the list of
`console.warn` messages for recommended columns that no header
matches. Missing columns only warn; they never fail the validation. -/
def validatePaysheetData (data : List (List String)) :
    Except String (Bool × List String) :=
  if data.length < 2 then
    .error "File must contain at least header row and one data row"
  else
    let headers := data.headD []
    let normalizedHeaders := headers.map normalizeValidateHeader
    let warnings := requiredColumns.filterMap fun rc =>
      if normalizedHeaders.any (fun h => rc.2.any fun p => headerMatchesPattern h p) then
        none
      else
        some ("Recommended column \"" ++ rc.1 ++ "\" not found")
    .ok (true, warnings)

/-- The batch summary (lines 147-152 and 222-227): record count and the
three `reduce((sum, record) => sum + record.field, 0)` totals. -/
structure Summary where
  totalRecords : Nat
  totalGross : ℚ
  totalDeductions : ℚ
  totalNet : ℚ
  deriving DecidableEq

/-- Build the summary of a processed record list exactly as the two
`summary:` object literals do. -/
def summaryOf (records : List Record) : Summary :=
  { totalRecords := records.length
    totalGross := records.foldl (fun sum record => sum + record.grossSalary) 0
    totalDeductions := records.foldl (fun sum record => sum + record.totalDeductions) 0
    totalNet := records.foldl (fun sum record => sum + record.netPay) 0 }

/-- The paysheet object written to `localStorage` on the fallback path
(lines 217-228): month, year, import timestamp, the record array and
its summary. -/
structure LocalPaysheet where
  month : String
  year : String
  importDate : String
  records : List Record
  summary : Summary

/-- The object returned by `importPaysheetFile`: `success`, a
human-readable `message`, the processed records (or `none` on failure)
and the paysheet key (`none` on failure and on the fallback path). -/
structure ImportOutcome where
  success : Bool
  message : String
  data : Option (List Record)
  paysheetId : Option String

/-- `importPaysheetFile` (lines 113-248), after file reading and
parsing: `parsedData` is the parsed grid, `primary` the outcome of the
whole Firebase write sequence of the inner `try` (initialization, the
paysheet `set`, the per-record slip `set`s and the backup local write —
`.error` means some step threw), `secondary` the outcome of the
fallback `localStorage.setItem`. The second component of the result is
what the fallback path wrote to local storage (`none` when the fallback
did not complete a write). -/
def importPaysheetFile (parsedData : List (List String)) (month year now : String)
    (primary secondary : Except String Unit) :
    ImportOutcome × Option LocalPaysheet :=
  match validatePaysheetData parsedData with
  | .error msg => (⟨false, msg, none, none⟩, none)
  | .ok _ =>
    let processedData := processDataForLocalStorage parsedData month year now
    match primary with
    | .ok _ =>
      (⟨true,
        "Successfully imported " ++ toString processedData.length ++
          " paysheet records to Firebase database",
        some processedData, some (month ++ "_" ++ year)⟩, none)
    | .error _ =>
      let paysheetData : LocalPaysheet :=
        ⟨month, year, now, processedData, summaryOf processedData⟩
      match secondary with
      | .ok _ =>
        (⟨true,
          "Successfully imported " ++ toString processedData.length ++
            " paysheet records to local storage (Firebase backup failed)",
          some processedData, none⟩, some paysheetData)
      | .error e => (⟨false, e, none, none⟩, none)

/-! ## Helper lemmas -/

/-- Past the length check, validation always succeeds with `true` and
some list of warnings. -/
theorem validatePaysheetData_ok (data : List (List String)) (h : 2 ≤ data.length) :
    ∃ warnings, validatePaysheetData data = .ok (true, warnings) := by
  unfold validatePaysheetData
  rw [if_neg (by omega)]
  exact ⟨_, rfl⟩

/-- A `reduce((sum, r) => sum + f(r), a)` fold is `a` plus the sum of
the mapped values. -/
theorem foldl_add_eq (f : Record → ℚ) (l : List Record) : ∀ a : ℚ,
    l.foldl (fun sum r => sum + f r) a = a + (l.map f).sum := by
  induction l with
  | nil => intro a; simp
  | cons r rest ih => intro a; simp [ih, add_assoc]

/-- The data-row loop is a `filterMap` over the rows paired with their
1-based indices: each row yields exactly one record or nothing. -/
theorem processRows_eq_filterMap (cm : ColumnMap) (month year now : String) :
    ∀ (l : List (List String)) (i : Nat),
      processRows cm month year now i l =
        (l.enumFrom i).filterMap fun p =>
          if p.2.length < 3 then none
          else some (mkRecord cm month year now p.1 p.2) := by
  intro l
  induction l with
  | nil => intro i; rfl
  | cons row rest ih =>
    intro i
    by_cases h : row.length < 3
    · simp [processRows, List.enumFrom, h, ih]
    · simp [processRows, List.enumFrom, h, ih]

/-- Loop output length: input rows minus the skipped short rows. -/
theorem processRows_length (cm : ColumnMap) (month year now : String) :
    ∀ (l : List (List String)) (i : Nat),
      (processRows cm month year now i l).length =
        l.length - l.countP fun r => decide (r.length < 3) := by
  intro l
  induction l with
  | nil => intro i; rfl
  | cons row rest ih =>
    intro i
    have hle := List.countP_le_length (p := fun r : List String => decide (r.length < 3)) (l := rest)
    by_cases h : row.length < 3
    · rw [processRows, if_pos h, ih (i + 1)]
      simp [List.countP_cons, h]
    · rw [processRows, if_neg h]
      simp only [List.length_cons, ih (i + 1), List.countP_cons, h]
      simp
      omega

/-- Every record the loop emits is `mkRecord` of some index and row. -/
theorem processRows_mem (cm : ColumnMap) (month year now : String) :
    ∀ (l : List (List String)) (i : Nat) (r : Record),
      r ∈ processRows cm month year now i l →
      ∃ j row, r = mkRecord cm month year now j row := by
  intro l
  induction l with
  | nil => intro i r hr; simp [processRows] at hr
  | cons row rest ih =>
    intro i r hr
    by_cases h : row.length < 3
    · rw [processRows, if_pos h] at hr
      exact ih (i + 1) r hr
    · rw [processRows, if_neg h] at hr
      rcases List.mem_cons.mp hr with heq | hmem
      · exact ⟨i, row, heq⟩
      · exact ih (i + 1) r hmem

/-- Sample grid used by witnesses: exact-schema headers and two
complete data rows. -/
def sampleGrid : List (List String) :=
  [["Teacher ID", "Name of Staff", "Revised Basic Pay", "Gross Total", "Net Pay"],
   ["T001", "Dr. Smith", "50000", "73000", "60500"],
   ["T002", "Ms. Doe", "45000", "65500", "54900"]]

/-- Records produced from `sampleGrid`. -/
def sampleRecords : List Record :=
  processDataForLocalStorage sampleGrid "January" "2025" "2025-02-01T10:00:00.000Z"

/-- Grid used by the row-skipping witness: two complete data rows
around one 2-cell row. -/
def skipGrid : List (List String) :=
  [["h1", "h2", "h3"], ["a", "b", "c"], ["x", "y"], ["d", "e", "f"]]

/-! ## Claim theorems -/

/-- C8: for every grid with fewer than 2 rows (zero data rows),
`processDataForLocalStorage` returns the empty record sequence. -/
theorem c8_empty_grid (csvData : List (List String)) (month year now : String)
    (h : csvData.length < 2) :
    processDataForLocalStorage csvData month year now = [] := by
  unfold processDataForLocalStorage
  rw [if_pos h]

theorem c8_empty_grid_witness :
    ([["Teacher ID", "Name", "Basic"]] : List (List String)).length < 2 ∧
      processDataForLocalStorage [["Teacher ID", "Name", "Basic"]] "January" "2025"
        "2025-02-01T10:00:00.000Z" = [] :=
  ⟨by decide, c8_empty_grid _ _ _ _ (by decide)⟩

/-- C6: for every grid with at least a header row and a data row,
`validatePaysheetData` succeeds with `true` whatever the headers are;
missing recommended columns only contribute warnings. -/
theorem c6_validation_never_rejects (data : List (List String)) (h : 2 ≤ data.length) :
    ∃ warnings, validatePaysheetData data = .ok (true, warnings) :=
  validatePaysheetData_ok data h

theorem c6_validation_never_rejects_witness :
    ∃ warnings, validatePaysheetData [["zz", "qq"], ["1", "2", "3"]] = .ok (true, warnings) :=
  c6_validation_never_rejects _ (by decide)

/-- C7: in every record produced by `processDataForLocalStorage`, each
legacy-alias field equals the exact-schema field read from the same
source cell. -/
theorem c7_legacy_alias_fields (csvData : List (List String)) (month year now : String)
    (r : Record) (hm : r ∈ processDataForLocalStorage csvData month year now) :
    r.basicSalary = r.revisedBasicPay ∧ r.da = r.da150 ∧ r.hra = r.hra30 ∧
      r.allowances = r.addAllowance ∧ r.grossSalary = r.grossTotal := by
  unfold processDataForLocalStorage at hm
  by_cases h : csvData.length < 2
  · rw [if_pos h] at hm
    simp at hm
  · rw [if_neg h] at hm
    obtain ⟨j, row, rfl⟩ := processRows_mem _ _ _ _ _ _ _ hm
    exact ⟨rfl, rfl, rfl, rfl, rfl⟩

theorem c7_legacy_alias_fields_witness :
    (mkRecord (buildColumnMap ["h1", "h2", "h3"]) "January" "2025" "T" 1 ["a", "b", "c"]) ∈
        processDataForLocalStorage [["h1", "h2", "h3"], ["a", "b", "c"]] "January" "2025" "T" ∧
      ((mkRecord (buildColumnMap ["h1", "h2", "h3"]) "January" "2025" "T" 1
          ["a", "b", "c"]).basicSalary =
        (mkRecord (buildColumnMap ["h1", "h2", "h3"]) "January" "2025" "T" 1
          ["a", "b", "c"]).revisedBasicPay) :=
  ⟨List.mem_singleton_self _,
   (c7_legacy_alias_fields [["h1", "h2", "h3"], ["a", "b", "c"]] "January" "2025" "T" _
      (List.mem_singleton_self _)).1⟩

/-- C5: `processDataForLocalStorage` is a `filterMap` over the data
rows paired with their indices — rows with fewer than 3 cells yield no
record, every other row yields exactly one, in input order — and the
output length is the number of data rows minus the number skipped. -/
theorem c5_row_skipping (csvData : List (List String)) (month year now : String)
    (h : 2 ≤ csvData.length) :
    processDataForLocalStorage csvData month year now =
      (((csvData.drop 1).enumFrom 1).filterMap fun p =>
        if p.2.length < 3 then none
        else some (mkRecord (buildColumnMap (csvData.headD [])) month year now p.1 p.2)) ∧
      (processDataForLocalStorage csvData month year now).length =
        (csvData.length - 1) -
          (csvData.drop 1).countP fun r => decide (r.length < 3) := by
  unfold processDataForLocalStorage
  rw [if_neg (by omega)]
  refine ⟨processRows_eq_filterMap _ _ _ _ _ _, ?_⟩
  rw [processRows_length]
  simp

theorem c5_row_skipping_witness :
    2 ≤ skipGrid.length ∧
      (processDataForLocalStorage skipGrid "January" "2025" "T").length =
        (skipGrid.length - 1) - (skipGrid.drop 1).countP fun r => decide (r.length < 3) :=
  ⟨by decide, (c5_row_skipping skipGrid "January" "2025" "T" (by decide)).2⟩

/-- C9: the batch summary is deterministic (computing it twice on the
same list gives the same totals) and order-independent (a permutation
of the record list gives the same totals). Numbers are embedded as
exact rationals. -/
theorem c9_summary_order_independent (l l' : List Record) (h : l.Perm l') :
    summaryOf l = summaryOf l ∧ summaryOf l = summaryOf l' := by
  refine ⟨rfl, ?_⟩
  have hsum : ∀ f : Record → ℚ, (l.map f).sum = (l'.map f).sum :=
    fun f => (h.map f).sum_eq
  simp only [summaryOf, foldl_add_eq]
  rw [h.length_eq, hsum, hsum, hsum]

theorem c9_summary_order_independent_witness :
    sampleRecords.Perm sampleRecords.reverse ∧
      summaryOf sampleRecords = summaryOf sampleRecords.reverse :=
  ⟨(List.reverse_perm sampleRecords).symm,
   (c9_summary_order_independent sampleRecords sampleRecords.reverse
      ((List.reverse_perm sampleRecords).symm)).2⟩

/-- C10: a parsed grid with fewer than two rows always yields the
failure outcome with the fixed message, because `validatePaysheetData`
throws exactly on such grids. -/
theorem c10_reject_short_input (parsedData : List (List String)) (month year now : String)
    (primary secondary : Except String Unit) (h : parsedData.length < 2) :
    importPaysheetFile parsedData month year now primary secondary =
        (⟨false, "File must contain at least header row and one data row", none, none⟩, none) ∧
      ∀ d : List (List String),
        (∃ msg, validatePaysheetData d = .error msg) ↔ d.length < 2 := by
  constructor
  · unfold importPaysheetFile validatePaysheetData
    rw [if_pos h]
  · intro d
    constructor
    · rintro ⟨msg, hmsg⟩
      by_contra hlen
      unfold validatePaysheetData at hmsg
      rw [if_neg hlen] at hmsg
      exact Except.noConfusion hmsg
    · intro hd
      exact ⟨_, by unfold validatePaysheetData; rw [if_pos hd]⟩

theorem c10_reject_short_input_witness :
    importPaysheetFile [["Teacher ID", "Name", "Basic"]] "January" "2025" "T" (.ok ()) (.ok ()) =
      (⟨false, "File must contain at least header row and one data row", none, none⟩, none) :=
  (c10_reject_short_input [["Teacher ID", "Name", "Basic"]] "January" "2025" "T"
    (.ok ()) (.ok ()) (by decide)).1

/-- C3: when the primary (Firebase) write path fails at any step,
the importer writes the processed batch to local storage and still
reports success, with `paysheetId = none` and a message naming local storage —
distinguishable from a primary success, whose `paysheetId` is the
period key; if the fallback write also throws, the outcome is a failure
carrying that error message. -/
theorem c3_fallback_persists (parsedData : List (List String)) (month year now e : String)
    (secondary : Except String Unit) (h : 2 ≤ parsedData.length) :
    (secondary = .ok () →
      (importPaysheetFile parsedData month year now (.error e) secondary).1.success = true ∧
      (importPaysheetFile parsedData month year now (.error e) secondary).1.paysheetId = none ∧
      (importPaysheetFile parsedData month year now (.error e) secondary).1.message =
        "Successfully imported " ++
          toString (processDataForLocalStorage parsedData month year now).length ++
          " paysheet records to local storage (Firebase backup failed)" ∧
      (importPaysheetFile parsedData month year now (.error e) secondary).2 =
        some ⟨month, year, now, processDataForLocalStorage parsedData month year now,
          summaryOf (processDataForLocalStorage parsedData month year now)⟩) ∧
    (∀ msg, secondary = .error msg →
      (importPaysheetFile parsedData month year now (.error e) secondary).1.success = false ∧
      (importPaysheetFile parsedData month year now (.error e) secondary).1.message = msg ∧
      (importPaysheetFile parsedData month year now (.error e) secondary).2 = none) ∧
    (∀ s2 : Except String Unit,
      (importPaysheetFile parsedData month year now (.ok ()) s2).1.paysheetId =
        some (month ++ "_" ++ year)) := by
  obtain ⟨w, hw⟩ := validatePaysheetData_ok parsedData h
  refine ⟨?_, ?_, ?_⟩
  · rintro rfl
    simp [importPaysheetFile, hw]
  · rintro msg rfl
    simp [importPaysheetFile, hw]
  · intro s2
    simp [importPaysheetFile, hw]

theorem c3_fallback_persists_witness :
    2 ≤ ([["h1", "h2", "h3"], ["1", "2", "3"]] : List (List String)).length ∧
      (importPaysheetFile [["h1", "h2", "h3"], ["1", "2", "3"]] "January" "2025" "T"
          (.error "network down") (.ok ())).1.success = true ∧
      (importPaysheetFile [["h1", "h2", "h3"], ["1", "2", "3"]] "January" "2025" "T"
          (.error "network down") (.ok ())).1.paysheetId = none :=
  ⟨by decide,
   ((c3_fallback_persists [["h1", "h2", "h3"], ["1", "2", "3"]] "January" "2025" "T"
        "network down" (.ok ()) (by decide)).1 rfl).1,
   ((c3_fallback_persists [["h1", "h2", "h3"], ["1", "2", "3"]] "January" "2025" "T"
        "network down" (.ok ()) (by decide)).1 rfl).2.1⟩

/-- C4: a currency cell read through a mapped column coerces to the
parsed number when its content (after the importer's trimming and
quote-stripping) parses as a number, and to 0 when it does not; an
unmapped column coerces to 0; every cell falls into one of the two
cases, so coercion is total and never fails. -/
theorem c4_currency_coercion (row : List String) (i : Nat) (raw : String)
    (hc : row.get? i = some (stripQuotes (jsTrim raw))) :
    (∀ v : ℚ, jsParseFloat (stripQuotes (jsTrim raw)) = some v →
      currencyAt (some i) row = v) ∧
    (jsParseFloat (stripQuotes (jsTrim raw)) = none → currencyAt (some i) row = 0) ∧
    (∀ r : List String, currencyAt none r = 0) ∧
    ((∃ v, jsParseFloat (stripQuotes (jsTrim raw)) = some v ∧ currencyAt (some i) row = v) ∨
      (jsParseFloat (stripQuotes (jsTrim raw)) = none ∧ currencyAt (some i) row = 0)) := by
  have hcur : currencyAt (some i) row = (jsParseFloat (stripQuotes (jsTrim raw))).getD 0 := by
    simp only [currencyAt]
    rw [hc]
  refine ⟨?_, ?_, fun r => rfl, ?_⟩
  · intro v hv
    rw [hcur, hv]
    rfl
  · intro hv
    rw [hcur, hv]
    rfl
  · cases hp : jsParseFloat (stripQuotes (jsTrim raw)) with
    | none => exact Or.inr ⟨rfl, by rw [hcur, hp]; rfl⟩
    | some v => exact Or.inl ⟨v, rfl, by rw [hcur, hp]; rfl⟩

theorem c4_currency_coercion_witness :
    (["x", stripQuotes (jsTrim "  \"50000\"  ")].get? 1 =
        some (stripQuotes (jsTrim "  \"50000\"  "))) ∧
      currencyAt (some 1) ["x", stripQuotes (jsTrim "  \"50000\"  ")] = 50000 ∧
      currencyAt (some 0) [stripQuotes (jsTrim "N/A")] = 0 :=
  ⟨rfl,
   (c4_currency_coercion ["x", stripQuotes (jsTrim "  \"50000\"  ")] 1 "  \"50000\"  " rfl).1
     50000 (by decide),
   (c4_currency_coercion [stripQuotes (jsTrim "N/A")] 0 "N/A" rfl).2.1 (by decide)⟩

/-- C1 (amended): on the grid parsed from `"ID,Name,Basic"` and
`"T001,Dr. Smith,50000"` with period January 2025, the normalizer
returns exactly one record, with `monthNum = "01"` — but none of the
three headers satisfies the conjunctive column rules, so the identifier
falls back to the row ordinal (`"1_January_2025"`, not
`"T001_January_2025"`) and `basicSalary` is 0, not 50000. -/
theorem c1_scenario_a_amended :
    (processDataForLocalStorage (parseCSV "ID,Name,Basic\nT001,Dr. Smith,50000")
        "January" "2025" "2025-02-01T10:00:00.000Z").map
      (fun r => (r.id, r.basicSalary, r.monthNum)) = [("1_January_2025", (0 : ℚ), "01")] := by
  decide

/-- C1 counterexample: the claimed record — identifier
`"T001_January_2025"` and `basicSalary = 50000` — is not what the
normalizer produces on that grid. -/
theorem c1_scenario_a_counterexample :
    ¬ ((processDataForLocalStorage (parseCSV "ID,Name,Basic\nT001,Dr. Smith,50000")
          "January" "2025" "2025-02-01T10:00:00.000Z").map
        (fun r => (r.id, r.basicSalary, r.monthNum)) =
      [("T001_January_2025", (50000 : ℚ), "01")]) := by
  decide

/-- C2 (amended): the bidirectional substring aliasing governs only the
validation warnings: `"Staff ID"` and `"Full Name"` match the
identifier and name alias patterns, so the file validates with no
warning, but the column mapping used for extraction is built by
conjunctive token rules under which neither header is recorded — the
teacher-identifier and teacher-name fields stay unmapped. -/
theorem c2_header_aliasing_amended :
    headerMatchesPattern (normalizeValidateHeader "Staff ID") "staff_id" = true ∧
      headerMatchesPattern (normalizeValidateHeader "Full Name") "full_name" = true ∧
      validatePaysheetData [["Staff ID", "Full Name", "Basic"], ["T001", "Dr. Smith", "50000"]] =
        .ok (true, []) ∧
      (buildColumnMap ["Staff ID", "Full Name", "Basic"]).teacherId = none ∧
      (buildColumnMap ["Staff ID", "Full Name", "Basic"]).teacherName = none :=
  ⟨by decide, by decide, rfl, by decide, by decide⟩

/-- C2 counterexample: contrary to the claim, a header row containing
`"Staff ID"` and `"Full Name"` maps neither the teacher-identifier
field to column 0 nor the teacher-name field to column 1. -/
theorem c2_header_aliasing_counterexample :
    ¬ ((buildColumnMap ["Staff ID", "Full Name"]).teacherId = some 0 ∧
       (buildColumnMap ["Staff ID", "Full Name"]).teacherName = some 1) := by
  decide

end PaysheetImporter
